import Mathlib

/-!
A verification development for the HTTP statistics core of
`megaease/metrics-go` (packages `helper` and `metricshub`).

Modelling conventions of the shallow embedding:
* Go `uint64` counters are modelled as `Nat`; wraparound of the 64-bit
  counters is not modelled (the sentinel constant `math.MaxUint64` is kept
  as the literal `2 ^ 64 - 1`).
* Go `int` status codes are modelled as `Int` (they can be negative).
* Go `float64` rate values are modelled as `Rat`.
* `time.Duration` is an `Int64` nanosecond count in Go; durations are
  modelled as `Nat` nanoseconds (the data model of the library only admits
  non-negative durations), with `Milliseconds` as division by 10^6.
* Mutating methods become state-passing functions; `HTTPStat.Status`
  returns the produced `Status` value together with the updated state.
* The third-party EWMA (rcrowley/go-metrics) and the repository's
  `helper.DurationSampler` are not part of the sources at hand; they are
  modelled from their documented contracts, with the smoothing constant
  `alpha` kept symbolic.
-/

namespace MetricsGo

/-- `helper.HTTPStatusCodeCounter`: a fixed-size tally of HTTP status
codes, one slot per code in `[0, 1000)`. -/
structure HTTPStatusCodeCounter where
  counter : List Nat
deriving DecidableEq, Repr

namespace HTTPStatusCodeCounter

/-- `helper.New`: a counter with 1000 zeroed slots. -/
def New : HTTPStatusCodeCounter := ⟨List.replicate 1000 0⟩

/-- `helper.(*HTTPStatusCodeCounter).Count`: increments the slot for
`code`; out-of-range codes (`code < 0 || code >= len(cc.counter)`) are
silently dropped. -/
def Count (cc : HTTPStatusCodeCounter) (code : Int) : HTTPStatusCodeCounter :=
  if code < 0 ∨ (cc.counter.length : Int) ≤ code then cc
  else ⟨cc.counter.set code.toNat (cc.counter.getD code.toNat 0 + 1)⟩

/-- `helper.(*HTTPStatusCodeCounter).Reset`: zeroes every slot. -/
def Reset (cc : HTTPStatusCodeCounter) : HTTPStatusCodeCounter :=
  ⟨List.replicate cc.counter.length 0⟩

/-- `helper.(*HTTPStatusCodeCounter).Codes`: the mapping from code to
count, restricted to slots with a non-zero count (in code order). -/
def Codes (cc : HTTPStatusCodeCounter) : List (Nat × Nat) :=
  cc.counter.enum.filter (fun p => 0 < p.2)

theorem mem_Codes_iff (cc : HTTPStatusCodeCounter) (i cnt : Nat) :
    (i, cnt) ∈ cc.Codes ↔ cc.counter[i]? = some cnt ∧ 0 < cnt := by
  simp [Codes, List.mem_filter, List.mk_mem_enum_iff_getElem?, and_comm]

theorem Codes_Reset (cc : HTTPStatusCodeCounter) : (cc.Reset).Codes = [] := by
  rw [List.eq_nil_iff_forall_not_mem]
  rintro ⟨i, cnt⟩ h
  rw [mem_Codes_iff] at h
  rcases h with ⟨h1, h2⟩
  rcases Nat.lt_or_ge i (cc.Reset).counter.length with hlt | hge
  · rw [List.getElem?_eq_getElem hlt] at h1
    have hz : (cc.Reset).counter[i] = 0 := by
      simp only [Reset] at hlt ⊢
      simp [List.getElem_replicate]
    rw [hz] at h1
    exact absurd (Option.some.inj h1).symm (Nat.ne_of_gt h2)
  · rw [List.getElem?_eq_none hge] at h1
    exact Option.noConfusion h1

end HTTPStatusCodeCounter

/-- Modelled from the spec: the EWMA rate estimator of the external
go-metrics dependency (`metrics.EWMA`), specified by its contract:
`Update(n)` accumulates `n` events since the last tick; `Tick()`, run once
per 5-second interval, computes `instantRate = uncounted / 5` and sets
`rate = instantRate` on the first tick, and
`rate = rate + alpha * (instantRate - rate)` afterwards, with
`alpha = 1 - exp(-5 / timeConstantSeconds)` kept symbolic here; `Rate()`
returns the current events-per-second estimate. -/
structure EWMA where
  alpha : Rat
  uncounted : Nat
  rate : Rat
  init : Bool
deriving DecidableEq, Repr

namespace EWMA

/-- A fresh EWMA with the given smoothing constant. -/
def New (a : Rat) : EWMA := ⟨a, 0, 0, false⟩

/-- `Update(n)`: accumulate `n` events for the current tick interval. -/
def Update (e : EWMA) (n : Nat) : EWMA := { e with uncounted := e.uncounted + n }

/-- `Tick()`: fold the events of the elapsed 5-second interval into the
decayed rate estimate. -/
def Tick (e : EWMA) : EWMA :=
  let instantRate : Rat := (e.uncounted : Rat) / 5
  if e.init then
    { e with uncounted := 0, rate := e.rate + e.alpha * (instantRate - e.rate) }
  else
    { e with uncounted := 0, rate := instantRate, init := true }

/-- `Rate()`: current events-per-second estimate. -/
def Rate (e : EWMA) : Rat := e.rate

end EWMA

/-- Modelled from the spec: `helper.DurationSampler` (its source file is
not among the sources at hand; only its caller in `metricshub` is).
Contract: `Update` records one observed duration; `Percentiles` returns
the values at ranks {25, 50, 75, 95, 98, 99, 99.9} in milliseconds as a
sort-based estimate over the current sample, all zero for an empty
sample; `Reset` clears the sample set for the next window. -/
structure DurationSampler where
  samples : List Nat
deriving DecidableEq, Repr

namespace DurationSampler

/-- `helper.NewDurationSampler`: an empty sample set. -/
def New : DurationSampler := ⟨[]⟩

/-- `Update`: record one observation (duration in milliseconds). -/
def Update (s : DurationSampler) (ms : Nat) : DurationSampler :=
  ⟨s.samples ++ [ms]⟩

/-- `Reset`: clear the sample set for the next window. -/
def Reset (_ : DurationSampler) : DurationSampler := ⟨[]⟩

/-- The sort-based estimate of the value at rank `q` (a fraction in
`[0,1]`): the entry of the sorted sample at index `⌊q·n⌋`, clamped to the
last index; `0` for an empty sample. -/
def percentileAt (s : DurationSampler) (q : Rat) : Rat :=
  let l := List.insertionSort (· ≤ ·) s.samples
  if l.length = 0 then 0
  else ((l.getD (Nat.min (q * (l.length : Rat)).floor.toNat (l.length - 1)) 0 : Nat) : Rat)

/-- The fixed rank set {25%, 50%, 75%, 95%, 98%, 99%, 99.9%}. -/
def percentileRanks : List Rat :=
  [25/100, 50/100, 75/100, 95/100, 98/100, 99/100, 999/1000]

/-- `Percentiles`: the seven rank estimates, in rank order. -/
def Percentiles (s : DurationSampler) : List Rat :=
  percentileRanks.map s.percentileAt

end DurationSampler

/-- `metricshub.RequestMetric`: the per-request observation. `Duration`
is a nanosecond count (Go `time.Duration`), non-negative per the data
model; `StatusCode` is a Go `int`. -/
structure RequestMetric where
  StatusCode : Int
  Duration : Nat
  ReqSize : Nat
  RespSize : Nat
deriving DecidableEq, Repr

/-- `metricshub.(*RequestMetric).isErr`: `m.StatusCode >= 400`. -/
def RequestMetric.isErr (m : RequestMetric) : Bool :=
  decide (400 ≤ m.StatusCode)

/-- `uint64(m.Duration.Milliseconds())`: the duration in whole
milliseconds (Go divides the nanosecond count by 10^6). -/
def RequestMetric.durationMs (m : RequestMetric) : Nat :=
  m.Duration / 1000000

/-- `metricshub.HTTPStat`: the per-route statistics aggregator. -/
structure HTTPStat where
  count : Nat
  rate1 : EWMA
  rate5 : EWMA
  rate15 : EWMA
  errCount : Nat
  errRate1 : EWMA
  errRate5 : EWMA
  errRate15 : EWMA
  total : Nat
  min : Nat
  max : Nat
  durationSampler : DurationSampler
  reqSize : Nat
  respSize : Nat
  cc : HTTPStatusCodeCounter
deriving DecidableEq, Repr

/-- `metricshub.NewHTTPStat`: fresh aggregator; `min` starts at the
sentinel `math.MaxUint64`, every other counter at zero. The three EWMA
smoothing constants are passed symbolically. -/
def NewHTTPStat (a1 a5 a15 : Rat) : HTTPStat where
  count := 0
  rate1 := EWMA.New a1
  rate5 := EWMA.New a5
  rate15 := EWMA.New a15
  errCount := 0
  errRate1 := EWMA.New a1
  errRate5 := EWMA.New a5
  errRate15 := EWMA.New a15
  total := 0
  min := 2 ^ 64 - 1
  max := 0
  durationSampler := DurationSampler.New
  reqSize := 0
  respSize := 0
  cc := HTTPStatusCodeCounter.New

/-- `metricshub.(*HTTPStat).Stat`: fold one request observation into the
aggregator (the CAS min/max loops of the source are, sequentially, the
conditional min/max updates). -/
def HTTPStat.Stat (hs : HTTPStat) (m : RequestMetric) : HTTPStat :=
  let duration := m.durationMs
  { hs with
    count := hs.count + 1
    rate1 := hs.rate1.Update 1
    rate5 := hs.rate5.Update 1
    rate15 := hs.rate15.Update 1
    errCount := if m.isErr then hs.errCount + 1 else hs.errCount
    errRate1 := if m.isErr then hs.errRate1.Update 1 else hs.errRate1
    errRate5 := if m.isErr then hs.errRate5.Update 1 else hs.errRate5
    errRate15 := if m.isErr then hs.errRate15.Update 1 else hs.errRate15
    total := hs.total + duration
    min := if duration < hs.min then duration else hs.min
    max := if hs.max < duration then duration else hs.max
    durationSampler := hs.durationSampler.Update duration
    reqSize := hs.reqSize + m.ReqSize
    respSize := hs.respSize + m.RespSize
    cc := hs.cc.Count m.StatusCode }

/-- `metricshub.StatisticsMetric`: the scalar part of a snapshot. -/
structure StatisticsMetric where
  Count : Nat
  M1 : Rat
  M5 : Rat
  M15 : Rat
  ErrCount : Nat
  M1Err : Rat
  M5Err : Rat
  M15Err : Rat
  M1ErrPercent : Rat
  M5ErrPercent : Rat
  M15ErrPercent : Rat
  Min : Nat
  Max : Nat
  Mean : Nat
  P25 : Rat
  P50 : Rat
  P75 : Rat
  P95 : Rat
  P98 : Rat
  P99 : Rat
  P999 : Rat
  ReqSize : Nat
  RespSize : Nat
deriving DecidableEq, Repr

/-- `metricshub.Status`: a snapshot, the scalar metrics plus the
status-code histogram. -/
structure Status extends StatisticsMetric where
  Codes : List (Nat × Nat)
deriving DecidableEq, Repr

/-- `metricshub.(*HTTPStat).Status`: tick all six EWMAs, derive the
snapshot, and reset the windowed parts (duration sampler, status-code
counter). The three error-percentage guards are reproduced exactly as in
the source, where all three assign to the local `m1ErrPercent` and the
locals `m5ErrPercent`/`m15ErrPercent` keep their initial `0.0`. Returns
the snapshot together with the updated aggregator state. -/
def HTTPStat.Status (hs : HTTPStat) : MetricsGo.Status × HTTPStat :=
  let rate1 := hs.rate1.Tick
  let rate5 := hs.rate5.Tick
  let rate15 := hs.rate15.Tick
  let errRate1 := hs.errRate1.Tick
  let errRate5 := hs.errRate5.Tick
  let errRate15 := hs.errRate15.Tick
  let m1 := rate1.Rate
  let m5 := rate5.Rate
  let m15 := rate15.Rate
  let m1Err := errRate1.Rate
  let m5Err := errRate5.Rate
  let m15Err := errRate15.Rate
  let m5ErrPercent : Rat := 0
  let m15ErrPercent : Rat := 0
  let m1ErrPercent : Rat := 0
  let m1ErrPercent := if 0 < m1 then m1Err / m1 else m1ErrPercent
  let m1ErrPercent := if 0 < m5 then m5Err / m5 else m1ErrPercent
  let m1ErrPercent := if 0 < m15 then m15Err / m15 else m1ErrPercent
  let percentiles := hs.durationSampler.Percentiles
  let sampler := hs.durationSampler.Reset
  let codes := hs.cc.Codes
  let cc := hs.cc.Reset
  let mean := if 0 < hs.count then hs.total / hs.count else 0
  let minN := if 0 < hs.count then hs.min else 0
  (⟨⟨hs.count, m1, m5, m15,
     hs.errCount, m1Err, m5Err, m15Err,
     m1ErrPercent, m5ErrPercent, m15ErrPercent,
     minN, hs.max, mean,
     percentiles.getD 0 0, percentiles.getD 1 0, percentiles.getD 2 0,
     percentiles.getD 3 0, percentiles.getD 4 0, percentiles.getD 5 0,
     percentiles.getD 6 0,
     hs.reqSize, hs.respSize⟩, codes⟩,
   { hs with
     rate1 := rate1, rate5 := rate5, rate15 := rate15,
     errRate1 := errRate1, errRate5 := errRate5, errRate15 := errRate15,
     durationSampler := sampler, cc := cc })

/-- One operation on an aggregator: an `Observe` (`Stat`) or a
`Snapshot` (`Status`). -/
inductive Op where
  | stat (m : RequestMetric)
  | status
deriving DecidableEq, Repr

/-- One step of the aggregator state machine. -/
def step (hs : HTTPStat) : Op → HTTPStat
  | .stat m => hs.Stat m
  | .status => (hs.Status).2

/-- The state after running a sequence of operations from a fresh
aggregator with the given EWMA smoothing constants. -/
def run (a1 a5 a15 : Rat) (ops : List Op) : HTTPStat :=
  ops.foldl step (NewHTTPStat a1 a5 a15)

/-- The end-to-end scenario of the spec: ten 200-responses of 50 ms with
100 request / 200 response bytes, then two 500-responses of 500 ms (also
with 100 request / 200 response bytes, as the spec's byte totals of
1200/2400 presuppose). -/
def scenarioOps : List Op :=
  List.replicate 10 (Op.stat ⟨200, 50000000, 100, 200⟩) ++
  List.replicate 2 (Op.stat ⟨500, 500000000, 100, 200⟩)

/-!  ### Helper lemmas -/

theorem Status_state (hs : HTTPStat) :
    (hs.Status).2 = { hs with
      rate1 := hs.rate1.Tick, rate5 := hs.rate5.Tick, rate15 := hs.rate15.Tick,
      errRate1 := hs.errRate1.Tick, errRate5 := hs.errRate5.Tick,
      errRate15 := hs.errRate15.Tick,
      durationSampler := hs.durationSampler.Reset, cc := hs.cc.Reset } := rfl

theorem Status_fst_Count (hs : HTTPStat) : ((hs.Status).1).Count = hs.count := rfl

theorem Status_fst_ErrCount (hs : HTTPStat) : ((hs.Status).1).ErrCount = hs.errCount := rfl

theorem Status_fst_Max (hs : HTTPStat) : ((hs.Status).1).Max = hs.max := rfl

theorem Status_fst_Min (hs : HTTPStat) :
    ((hs.Status).1).Min = if 0 < hs.count then hs.min else 0 := rfl

theorem Status_fst_Mean (hs : HTTPStat) :
    ((hs.Status).1).Mean = if 0 < hs.count then hs.total / hs.count else 0 := rfl

theorem Status_fst_ReqSize (hs : HTTPStat) : ((hs.Status).1).ReqSize = hs.reqSize := rfl

theorem Status_fst_RespSize (hs : HTTPStat) : ((hs.Status).1).RespSize = hs.respSize := rfl

theorem run_inv {P : HTTPStat → Prop} :
    ∀ ops : List Op, (∀ s o, o ∈ ops → P s → P (step s o)) →
      ∀ s, P s → P (ops.foldl step s) := by
  intro ops
  induction ops with
  | nil => intro _ s hP; exact hP
  | cons o rest ih =>
      intro hstep s hP
      exact ih (fun s' o' ho' => hstep s' o' (List.mem_cons_of_mem _ ho')) _
        (hstep s o (List.mem_cons_self _ _) hP)

theorem stat_fold_counts (ms : List RequestMetric) :
    ∀ hs : HTTPStat,
      ((ms.map Op.stat).foldl step hs).count = hs.count + ms.length ∧
      ((ms.map Op.stat).foldl step hs).errCount =
        hs.errCount + (ms.filter RequestMetric.isErr).length := by
  induction ms with
  | nil => intro hs; simp
  | cons m rest ih =>
      intro hs
      simp only [List.map_cons, List.foldl_cons, List.filter_cons]
      rcases ih (step hs (Op.stat m)) with ⟨h1, h2⟩
      refine ⟨h1.trans ?_, h2.trans ?_⟩
      · simp only [step, HTTPStat.Stat, List.length_cons]
        omega
      · cases hm : m.isErr <;> (simp [step, HTTPStat.Stat, hm]; try omega)

/-!  ### Claims -/

/-- C1: the code contradicts the intended per-time-constant error
ratios. At the failing input — a fresh aggregator fed one single error
observation and then snapshotted — the 5-minute total rate is positive
and the 5-minute error-to-total ratio is 1, yet the reported
`M5ErrPercent` (and `M15ErrPercent`) are `0`, because the three guards in
the source all assign the `m1ErrPercent` local (the 15-minute ratio, 1
here, being the last write wins and lands in `M1ErrPercent`). -/
theorem C1_errPercent_overwritten_bug :
    0 < (((run (1/2) (1/3) (1/4) [Op.stat ⟨500, 50000000, 0, 0⟩]).Status).1).M5 ∧
    (((run (1/2) (1/3) (1/4) [Op.stat ⟨500, 50000000, 0, 0⟩]).Status).1).M5Err /
      (((run (1/2) (1/3) (1/4) [Op.stat ⟨500, 50000000, 0, 0⟩]).Status).1).M5 = 1 ∧
    (((run (1/2) (1/3) (1/4) [Op.stat ⟨500, 50000000, 0, 0⟩]).Status).1).M5ErrPercent = 0 ∧
    (((run (1/2) (1/3) (1/4) [Op.stat ⟨500, 50000000, 0, 0⟩]).Status).1).M15ErrPercent = 0 ∧
    (((run (1/2) (1/3) (1/4) [Op.stat ⟨500, 50000000, 0, 0⟩]).Status).1).M1ErrPercent = 1 := by
  simp only [run, step, List.foldl, HTTPStat.Stat, HTTPStat.Status, NewHTTPStat,
    EWMA.New, EWMA.Update, EWMA.Tick, EWMA.Rate, RequestMetric.isErr,
    RequestMetric.durationMs]
  norm_num

set_option maxRecDepth 20000 in
/-- C2 (counterexample): in the end-to-end scenario the snapshot's mean
is 1500/12 = 125 (integer division of the cumulative duration sum by the
count), not 108 as the claim states. -/
theorem C2_mean_is_125_not_108 :
    (((run (1/2) (1/3) (1/4) scenarioOps).Status).1).Mean = 125 ∧
    (((run (1/2) (1/3) (1/4) scenarioOps).Status).1).Mean ≠ 108 := by
  decide

set_option maxRecDepth 20000 in
/-- C2 (amended): in the end-to-end scenario — the two error requests
also carrying 100 request / 200 response bytes — the snapshot reports
count 12, error count 2, min 50, max 500, mean 125, request bytes 1200
and response bytes 2400. -/
theorem C2_scenario_snapshot :
    (((run (1/2) (1/3) (1/4) scenarioOps).Status).1).Count = 12 ∧
    (((run (1/2) (1/3) (1/4) scenarioOps).Status).1).ErrCount = 2 ∧
    (((run (1/2) (1/3) (1/4) scenarioOps).Status).1).Min = 50 ∧
    (((run (1/2) (1/3) (1/4) scenarioOps).Status).1).Max = 500 ∧
    (((run (1/2) (1/3) (1/4) scenarioOps).Status).1).Mean = 125 ∧
    (((run (1/2) (1/3) (1/4) scenarioOps).Status).1).ReqSize = 1200 ∧
    (((run (1/2) (1/3) (1/4) scenarioOps).Status).1).RespSize = 2400 := by
  decide

/-- C3: from a fresh aggregator, after any sequence of `Stat` calls the
snapshot reports `Count = N` (the number of calls) and `ErrCount = K`
(the number of calls with status code ≥ 400); moreover a single `Stat`
call always bumps the three total-rate trackers by one and bumps the
error count and the three error-rate trackers exactly when its status
code is ≥ 400. -/
theorem C3_count_and_errCount (a1 a5 a15 : Rat) (ms : List RequestMetric)
    (hs : HTTPStat) (m : RequestMetric) :
    (((run a1 a5 a15 (ms.map Op.stat)).Status).1).Count = ms.length ∧
    (((run a1 a5 a15 (ms.map Op.stat)).Status).1).ErrCount =
      (ms.filter RequestMetric.isErr).length ∧
    (hs.Stat m).rate1.uncounted = hs.rate1.uncounted + 1 ∧
    (hs.Stat m).rate5.uncounted = hs.rate5.uncounted + 1 ∧
    (hs.Stat m).rate15.uncounted = hs.rate15.uncounted + 1 ∧
    (hs.Stat m).errCount = hs.errCount + (if m.isErr then 1 else 0) ∧
    (hs.Stat m).errRate1.uncounted = hs.errRate1.uncounted + (if m.isErr then 1 else 0) ∧
    (hs.Stat m).errRate5.uncounted = hs.errRate5.uncounted + (if m.isErr then 1 else 0) ∧
    (hs.Stat m).errRate15.uncounted = hs.errRate15.uncounted + (if m.isErr then 1 else 0) ∧
    (m.isErr = true ↔ 400 ≤ m.StatusCode) := by
  have hc := stat_fold_counts ms (NewHTTPStat a1 a5 a15)
  refine ⟨?_, ?_, ?_, ?_, ?_, ?_, ?_, ?_, ?_, ?_⟩
  · rw [Status_fst_Count, run]
    exact hc.1.trans (by simp [NewHTTPStat])
  · rw [Status_fst_ErrCount, run]
    exact hc.2.trans (by simp [NewHTTPStat])
  · simp [HTTPStat.Stat, EWMA.Update]
  · simp [HTTPStat.Stat, EWMA.Update]
  · simp [HTTPStat.Stat, EWMA.Update]
  · cases hm : m.isErr <;> simp [HTTPStat.Stat, hm]
  · cases hm : m.isErr <;> simp [HTTPStat.Stat, EWMA.Update, hm]
  · cases hm : m.isErr <;> simp [HTTPStat.Stat, EWMA.Update, hm]
  · cases hm : m.isErr <;> simp [HTTPStat.Stat, EWMA.Update, hm]
  · simp [RequestMetric.isErr]

/-- C4: two snapshots in immediate succession: the second snapshot's
windowed fields are empty/zero (all seven percentiles `0`, empty
status-code histogram) while its cumulative fields equal the first
snapshot's; on the state, `Status` resets only the duration sampler and
the status counter — count, error count, duration sum, min, max and the
byte totals are untouched (the rate trackers are ticked, not reset). -/
theorem C4_second_snapshot (hs : HTTPStat) :
    (((hs.Status).2.Status).1).P25 = 0 ∧
    (((hs.Status).2.Status).1).P50 = 0 ∧
    (((hs.Status).2.Status).1).P75 = 0 ∧
    (((hs.Status).2.Status).1).P95 = 0 ∧
    (((hs.Status).2.Status).1).P98 = 0 ∧
    (((hs.Status).2.Status).1).P99 = 0 ∧
    (((hs.Status).2.Status).1).P999 = 0 ∧
    (((hs.Status).2.Status).1).Codes = [] ∧
    (((hs.Status).2.Status).1).Count = ((hs.Status).1).Count ∧
    (((hs.Status).2.Status).1).ErrCount = ((hs.Status).1).ErrCount ∧
    (((hs.Status).2.Status).1).Min = ((hs.Status).1).Min ∧
    (((hs.Status).2.Status).1).Max = ((hs.Status).1).Max ∧
    (((hs.Status).2.Status).1).Mean = ((hs.Status).1).Mean ∧
    (((hs.Status).2.Status).1).ReqSize = ((hs.Status).1).ReqSize ∧
    (((hs.Status).2.Status).1).RespSize = ((hs.Status).1).RespSize ∧
    ((hs.Status).2).count = hs.count ∧
    ((hs.Status).2).errCount = hs.errCount ∧
    ((hs.Status).2).total = hs.total ∧
    ((hs.Status).2).min = hs.min ∧
    ((hs.Status).2).max = hs.max ∧
    ((hs.Status).2).reqSize = hs.reqSize ∧
    ((hs.Status).2).respSize = hs.respSize ∧
    ((hs.Status).2).durationSampler = DurationSampler.New ∧
    ((hs.Status).2).cc = hs.cc.Reset :=
  ⟨rfl, rfl, rfl, rfl, rfl, rfl, rfl, HTTPStatusCodeCounter.Codes_Reset hs.cc,
   rfl, rfl, rfl, rfl, rfl, rfl, rfl, rfl, rfl, rfl, rfl, rfl, rfl, rfl, rfl, rfl⟩

set_option maxRecDepth 20000 in
/-- C5: `Count` increments the slot for `code` exactly when
`0 ≤ code < 1000` and is a silent no-op otherwise; `Codes` contains
exactly the codes with non-zero count; counting 404 three times yields
`{404: 3}`, and counting `-1` or `1000` leaves the counter unchanged. -/
theorem C5_statusCounter_contract (cc : HTTPStatusCodeCounter) (code : Int)
    (h : cc.counter.length = 1000) :
    (0 ≤ code ∧ code < 1000 →
      (cc.Count code).counter[code.toNat]? = some (cc.counter.getD code.toNat 0 + 1) ∧
      ∀ j : Nat, j ≠ code.toNat → (cc.Count code).counter[j]? = cc.counter[j]?) ∧
    (code < 0 ∨ 1000 ≤ code → cc.Count code = cc) ∧
    (∀ i cnt : Nat, (i, cnt) ∈ cc.Codes ↔ cc.counter[i]? = some cnt ∧ 0 < cnt) ∧
    (((HTTPStatusCodeCounter.New.Count 404).Count 404).Count 404).Codes = [(404, 3)] ∧
    HTTPStatusCodeCounter.New.Count (-1) = HTTPStatusCodeCounter.New ∧
    HTTPStatusCodeCounter.New.Count 1000 = HTTPStatusCodeCounter.New := by
  refine ⟨?_, ?_, fun i cnt => cc.mem_Codes_iff i cnt, by decide, by decide, by decide⟩
  · rintro ⟨h0, h1000⟩
    have hguard : ¬(code < 0 ∨ (cc.counter.length : Int) ≤ code) := by
      rw [h]; omega
    have htoNat : code.toNat < cc.counter.length := by
      rw [h]; omega
    constructor
    · rw [HTTPStatusCodeCounter.Count, if_neg hguard]
      exact List.getElem?_set_self (by simpa using htoNat)
    · intro j hj
      rw [HTTPStatusCodeCounter.Count, if_neg hguard]
      exact List.getElem?_set_ne (fun hEq => hj hEq.symm)
  · intro hout
    have hguard : code < 0 ∨ (cc.counter.length : Int) ≤ code := by
      rw [h]; omega
    rw [HTTPStatusCodeCounter.Count, if_pos hguard]

set_option maxRecDepth 20000 in
/-- C5 witness: the contract applied to the fresh counter and code 404:
the 404 slot goes from 0 to 1. -/
theorem C5_statusCounter_contract_witness :
    (HTTPStatusCodeCounter.New.Count 404).counter[(404 : Int).toNat]? =
      some (HTTPStatusCodeCounter.New.counter.getD (404 : Int).toNat 0 + 1) :=
  ((C5_statusCounter_contract HTTPStatusCodeCounter.New 404 (by decide)).1
    (by decide)).1

/-- C6: in every state reachable from a fresh aggregator by any sequence
of `Stat` and `Status` operations, `errCount ≤ count`. -/
theorem C6_errCount_le_count (a1 a5 a15 : Rat) (ops : List Op) :
    (run a1 a5 a15 ops).errCount ≤ (run a1 a5 a15 ops).count := by
  refine run_inv (P := fun s => s.errCount ≤ s.count) ops ?_ _ ?_
  · rintro s o _ hP
    cases o with
    | stat m =>
        simp only [step, HTTPStat.Stat]
        split <;> omega
    | status => exact hP
  · simp [NewHTTPStat]

theorem mean_bounds_inv (a1 a5 a15 : Rat) (ops : List Op) :
    (run a1 a5 a15 ops).count * (run a1 a5 a15 ops).min ≤ (run a1 a5 a15 ops).total ∧
    (run a1 a5 a15 ops).total ≤ (run a1 a5 a15 ops).count * (run a1 a5 a15 ops).max := by
  refine run_inv
    (P := fun s => s.count * s.min ≤ s.total ∧ s.total ≤ s.count * s.max) ops ?_ _ ?_
  · rintro s o _ ⟨h1, h2⟩
    cases o with
    | stat m =>
        simp only [step, HTTPStat.Stat]
        constructor
        · split
          · rename_i hlt
            rw [Nat.succ_mul]
            have h3 : s.count * m.durationMs ≤ s.count * s.min :=
              Nat.mul_le_mul_left _ (Nat.le_of_lt hlt)
            omega
          · rename_i hge
            rw [Nat.succ_mul]
            have h3 : s.min ≤ m.durationMs := Nat.le_of_not_lt hge
            omega
        · split
          · rename_i hlt
            rw [Nat.succ_mul]
            have h3 : s.count * s.max ≤ s.count * m.durationMs :=
              Nat.mul_le_mul_left _ (Nat.le_of_lt hlt)
            omega
          · rename_i hge
            rw [Nat.succ_mul]
            have h3 : m.durationMs ≤ s.max := Nat.le_of_not_lt hge
            omega
    | status => exact ⟨h1, h2⟩
  · simp [NewHTTPStat]

/-- C7: in every snapshot taken (after any operation sequence from a
fresh aggregator) whose count is positive, `Min ≤ Mean ≤ Max`. -/
theorem C7_min_le_mean_le_max (a1 a5 a15 : Rat) (ops : List Op)
    (h : 0 < (((run a1 a5 a15 ops).Status).1).Count) :
    (((run a1 a5 a15 ops).Status).1).Min ≤ (((run a1 a5 a15 ops).Status).1).Mean ∧
    (((run a1 a5 a15 ops).Status).1).Mean ≤ (((run a1 a5 a15 ops).Status).1).Max := by
  rcases mean_bounds_inv a1 a5 a15 ops with ⟨h1, h2⟩
  rw [Status_fst_Count] at h
  rw [Status_fst_Min, Status_fst_Mean, Status_fst_Max, if_pos h, if_pos h]
  constructor
  · exact (Nat.le_div_iff_mul_le h).mpr (by rw [Nat.mul_comm]; exact h1)
  · calc (run a1 a5 a15 ops).total / (run a1 a5 a15 ops).count
        ≤ (run a1 a5 a15 ops).count * (run a1 a5 a15 ops).max /
            (run a1 a5 a15 ops).count := Nat.div_le_div_right h2
      _ = (run a1 a5 a15 ops).max := Nat.mul_div_cancel_left _ h

set_option maxRecDepth 20000 in
/-- C7 witness: a single 50 ms observation gives a snapshot with positive
count and `Min ≤ Mean ≤ Max`. -/
theorem C7_min_le_mean_le_max_witness :
    (((run (1/2) (1/3) (1/4) [Op.stat ⟨200, 50000000, 100, 200⟩]).Status).1).Min ≤
      (((run (1/2) (1/3) (1/4) [Op.stat ⟨200, 50000000, 100, 200⟩]).Status).1).Mean ∧
    (((run (1/2) (1/3) (1/4) [Op.stat ⟨200, 50000000, 100, 200⟩]).Status).1).Mean ≤
      (((run (1/2) (1/3) (1/4) [Op.stat ⟨200, 50000000, 100, 200⟩]).Status).1).Max :=
  C7_min_le_mean_le_max (1/2) (1/3) (1/4) [Op.stat ⟨200, 50000000, 100, 200⟩]
    (by decide)

theorem DurationSampler.percentileAt_mono (s : DurationSampler) (q q' : Rat)
    (hs : s.samples ≠ []) (hq : q ≤ q') :
    s.percentileAt q ≤ s.percentileAt q' := by
  unfold DurationSampler.percentileAt
  have hlen : (List.insertionSort (· ≤ ·) s.samples).length = s.samples.length :=
    (List.perm_insertionSort _ _).length_eq
  have hne : (List.insertionSort (· ≤ ·) s.samples).length ≠ 0 := by
    rw [hlen]
    exact fun h0 => hs (List.eq_nil_of_length_eq_zero h0)
  simp only [if_neg hne]
  have hsorted : (List.insertionSort (· ≤ ·) s.samples).Sorted (· ≤ ·) :=
    List.sorted_insertionSort _ _
  set l := List.insertionSort (· ≤ ·) s.samples with hl
  set i := Nat.min (q * (l.length : Rat)).floor.toNat (l.length - 1) with hi
  set j := Nat.min (q' * (l.length : Rat)).floor.toNat (l.length - 1) with hj
  have hij : i ≤ j := by
    refine min_le_min ?_ (le_refl _)
    refine Int.toNat_le_toNat ?_
    show Int.floor (q * (l.length : Rat)) ≤ Int.floor (q' * (l.length : Rat))
    exact Int.floor_le_floor (mul_le_mul_of_nonneg_right hq (by positivity))
  have hilt : i < l.length :=
    Nat.lt_of_le_of_lt (Nat.min_le_right _ _) (by omega)
  have hjlt : j < l.length :=
    Nat.lt_of_le_of_lt (Nat.min_le_right _ _) (by omega)
  have hgi : l.getD i 0 = l[i] := by
    simp [List.getD_eq_getElem?_getD, List.getElem?_eq_getElem hilt]
  have hgj : l.getD j 0 = l[j] := by
    simp [List.getD_eq_getElem?_getD, List.getElem?_eq_getElem hjlt]
  rw [hgi, hgj]
  exact_mod_cast hsorted.rel_get_of_le (a := ⟨i, hilt⟩) (b := ⟨j, hjlt⟩) hij

/-- C9: in a snapshot taken while the sampler holds a non-empty sample
set, the seven percentile values are non-decreasing in rank order:
`P25 ≤ P50 ≤ P75 ≤ P95 ≤ P98 ≤ P99 ≤ P999`. -/
theorem C9_percentiles_monotone (hs : HTTPStat)
    (h : hs.durationSampler.samples ≠ []) :
    ((hs.Status).1).P25 ≤ ((hs.Status).1).P50 ∧
    ((hs.Status).1).P50 ≤ ((hs.Status).1).P75 ∧
    ((hs.Status).1).P75 ≤ ((hs.Status).1).P95 ∧
    ((hs.Status).1).P95 ≤ ((hs.Status).1).P98 ∧
    ((hs.Status).1).P98 ≤ ((hs.Status).1).P99 ∧
    ((hs.Status).1).P99 ≤ ((hs.Status).1).P999 := by
  have e25 : ((hs.Status).1).P25 = hs.durationSampler.percentileAt (25/100) := rfl
  have e50 : ((hs.Status).1).P50 = hs.durationSampler.percentileAt (50/100) := rfl
  have e75 : ((hs.Status).1).P75 = hs.durationSampler.percentileAt (75/100) := rfl
  have e95 : ((hs.Status).1).P95 = hs.durationSampler.percentileAt (95/100) := rfl
  have e98 : ((hs.Status).1).P98 = hs.durationSampler.percentileAt (98/100) := rfl
  have e99 : ((hs.Status).1).P99 = hs.durationSampler.percentileAt (99/100) := rfl
  have e999 : ((hs.Status).1).P999 = hs.durationSampler.percentileAt (999/1000) := rfl
  rw [e25, e50, e75, e95, e98, e99, e999]
  exact ⟨hs.durationSampler.percentileAt_mono _ _ h (by norm_num),
    hs.durationSampler.percentileAt_mono _ _ h (by norm_num),
    hs.durationSampler.percentileAt_mono _ _ h (by norm_num),
    hs.durationSampler.percentileAt_mono _ _ h (by norm_num),
    hs.durationSampler.percentileAt_mono _ _ h (by norm_num),
    hs.durationSampler.percentileAt_mono _ _ h (by norm_num)⟩

/-- C9 witness: the monotone rank order at a concrete aggregator whose
sampler holds the sample {3, 1, 2}. -/
theorem C9_percentiles_monotone_witness :
    ((({ NewHTTPStat (1/2) (1/3) (1/4) with
          durationSampler := ⟨[3, 1, 2]⟩ } : HTTPStat).Status).1).P25 ≤
      ((({ NewHTTPStat (1/2) (1/3) (1/4) with
          durationSampler := ⟨[3, 1, 2]⟩ } : HTTPStat).Status).1).P50 ∧
    ((({ NewHTTPStat (1/2) (1/3) (1/4) with
          durationSampler := ⟨[3, 1, 2]⟩ } : HTTPStat).Status).1).P50 ≤
      ((({ NewHTTPStat (1/2) (1/3) (1/4) with
          durationSampler := ⟨[3, 1, 2]⟩ } : HTTPStat).Status).1).P75 ∧
    ((({ NewHTTPStat (1/2) (1/3) (1/4) with
          durationSampler := ⟨[3, 1, 2]⟩ } : HTTPStat).Status).1).P75 ≤
      ((({ NewHTTPStat (1/2) (1/3) (1/4) with
          durationSampler := ⟨[3, 1, 2]⟩ } : HTTPStat).Status).1).P95 ∧
    ((({ NewHTTPStat (1/2) (1/3) (1/4) with
          durationSampler := ⟨[3, 1, 2]⟩ } : HTTPStat).Status).1).P95 ≤
      ((({ NewHTTPStat (1/2) (1/3) (1/4) with
          durationSampler := ⟨[3, 1, 2]⟩ } : HTTPStat).Status).1).P98 ∧
    ((({ NewHTTPStat (1/2) (1/3) (1/4) with
          durationSampler := ⟨[3, 1, 2]⟩ } : HTTPStat).Status).1).P98 ≤
      ((({ NewHTTPStat (1/2) (1/3) (1/4) with
          durationSampler := ⟨[3, 1, 2]⟩ } : HTTPStat).Status).1).P99 ∧
    ((({ NewHTTPStat (1/2) (1/3) (1/4) with
          durationSampler := ⟨[3, 1, 2]⟩ } : HTTPStat).Status).1).P99 ≤
      ((({ NewHTTPStat (1/2) (1/3) (1/4) with
          durationSampler := ⟨[3, 1, 2]⟩ } : HTTPStat).Status).1).P999 :=
  C9_percentiles_monotone
    { NewHTTPStat (1/2) (1/3) (1/4) with durationSampler := ⟨[3, 1, 2]⟩ }
    (by decide)

/-- Well-behaved EWMA state: a non-negative rate that is still zero
before the first tick. -/
def rateOK (e : EWMA) : Prop := 0 ≤ e.rate ∧ (e.init = false → e.rate = 0)

theorem EWMA.Tick_uncounted (e : EWMA) : (e.Tick).uncounted = 0 := by
  unfold EWMA.Tick
  split <;> rfl

theorem EWMA.Tick_alpha (e : EWMA) : (e.Tick).alpha = e.alpha := by
  unfold EWMA.Tick
  split <;> rfl

theorem EWMA.Tick_rate_zero (e : EWMA) (hu : e.uncounted = 0) (hr : e.rate = 0) :
    (e.Tick).rate = 0 := by
  unfold EWMA.Tick
  split <;> simp [hu, hr]

theorem EWMA.rateOK_Tick (e : EWMA) (ha0 : 0 ≤ e.alpha) (ha1 : e.alpha ≤ 1)
    (hOK : rateOK e) : rateOK (e.Tick) := by
  rcases hOK with ⟨hr0, _⟩
  constructor
  · show 0 ≤ (e.Tick).rate
    unfold EWMA.Tick
    split
    · show 0 ≤ e.rate + e.alpha * ((e.uncounted : Rat) / 5 - e.rate)
      have key : e.rate + e.alpha * ((e.uncounted : Rat) / 5 - e.rate) =
          (1 - e.alpha) * e.rate + e.alpha * ((e.uncounted : Rat) / 5) := by ring
      rw [key]
      have t1 : 0 ≤ (1 - e.alpha) * e.rate := mul_nonneg (by linarith) hr0
      have t2 : 0 ≤ e.alpha * ((e.uncounted : Rat) / 5) :=
        mul_nonneg ha0 (by positivity)
      linarith
    · show 0 ≤ (e.uncounted : Rat) / 5
      positivity
  · intro hfalse
    unfold EWMA.Tick at hfalse
    revert hfalse
    split
    · rename_i hinit
      intro hfalse
      exact absurd hfalse (by simp [hinit])
    · intro hfalse
      exact absurd hfalse (by simp)

theorem EWMA.Tick_rate_pos (e : EWMA) (ha0 : 0 < e.alpha) (ha1 : e.alpha < 1)
    (hOK : rateOK e) (h : 0 < e.uncounted ∨ 0 < e.rate) :
    0 < (e.Tick).rate := by
  rcases hOK with ⟨hr0, hinit⟩
  unfold EWMA.Tick
  split
  · show 0 < e.rate + e.alpha * ((e.uncounted : Rat) / 5 - e.rate)
    have key : e.rate + e.alpha * ((e.uncounted : Rat) / 5 - e.rate) =
        (1 - e.alpha) * e.rate + e.alpha * ((e.uncounted : Rat) / 5) := by ring
    rw [key]
    rcases h with hu | hr
    · have huQ : 0 < (e.uncounted : Rat) := by exact_mod_cast hu
      have t1 : 0 ≤ (1 - e.alpha) * e.rate := mul_nonneg (by linarith) hr0
      have t2 : 0 < e.alpha * ((e.uncounted : Rat) / 5) :=
        mul_pos ha0 (by positivity)
      linarith
    · have t1 : 0 < (1 - e.alpha) * e.rate := mul_pos (by linarith) hr
      have t2 : 0 ≤ e.alpha * ((e.uncounted : Rat) / 5) :=
        mul_nonneg ha0.le (by positivity)
      linarith
  · rename_i hinitF
    show 0 < (e.uncounted : Rat) / 5
    have hrz : e.rate = 0 := hinit (by simpa using hinitF)
    rcases h with hu | hr
    · have huQ : 0 < (e.uncounted : Rat) := by exact_mod_cast hu
      positivity
    · rw [hrz] at hr
      exact absurd hr (lt_irrefl 0)

/-- The reachability invariant tying the total-rate EWMAs to the request
count: the smoothing constants are those of construction, each rate is
well-behaved, a positive count leaves a trace in each total-rate tracker,
and a zero count means all total-rate trackers are untouched. -/
def rateInv (a1 a5 a15 : Rat) (s : HTTPStat) : Prop :=
  s.rate1.alpha = a1 ∧ s.rate5.alpha = a5 ∧ s.rate15.alpha = a15 ∧
  rateOK s.rate1 ∧ rateOK s.rate5 ∧ rateOK s.rate15 ∧
  (0 < s.count → 0 < s.rate1.uncounted ∨ 0 < s.rate1.rate) ∧
  (0 < s.count → 0 < s.rate5.uncounted ∨ 0 < s.rate5.rate) ∧
  (0 < s.count → 0 < s.rate15.uncounted ∨ 0 < s.rate15.rate) ∧
  (s.count = 0 → s.rate1.uncounted = 0 ∧ s.rate1.rate = 0 ∧
    s.rate5.uncounted = 0 ∧ s.rate5.rate = 0 ∧
    s.rate15.uncounted = 0 ∧ s.rate15.rate = 0)

theorem rateInv_run (a1 a5 a15 : Rat)
    (ha1 : 0 < a1) (ha1' : a1 < 1) (ha5 : 0 < a5) (ha5' : a5 < 1)
    (ha15 : 0 < a15) (ha15' : a15 < 1) (ops : List Op) :
    rateInv a1 a5 a15 (run a1 a5 a15 ops) := by
  refine run_inv ops ?_ _ ?_
  · rintro s o _ ⟨ga1, ga5, ga15, ok1, ok5, ok15, p1, p5, p15, z⟩
    cases o with
    | stat m =>
        refine ⟨ga1, ga5, ga15, ⟨ok1.1, ok1.2⟩, ⟨ok5.1, ok5.2⟩, ⟨ok15.1, ok15.2⟩,
          ?_, ?_, ?_, ?_⟩
        · intro _; left; simp [step, HTTPStat.Stat, EWMA.Update]
        · intro _; left; simp [step, HTTPStat.Stat, EWMA.Update]
        · intro _; left; simp [step, HTTPStat.Stat, EWMA.Update]
        · intro hc; exact absurd hc (by simp [step, HTTPStat.Stat])
    | status =>
        refine ⟨by rw [show (step s Op.status).rate1 = s.rate1.Tick from rfl,
            EWMA.Tick_alpha]; exact ga1,
          by rw [show (step s Op.status).rate5 = s.rate5.Tick from rfl,
            EWMA.Tick_alpha]; exact ga5,
          by rw [show (step s Op.status).rate15 = s.rate15.Tick from rfl,
            EWMA.Tick_alpha]; exact ga15,
          s.rate1.rateOK_Tick (by rw [ga1]; exact ha1.le) (by rw [ga1]; exact ha1'.le) ok1,
          s.rate5.rateOK_Tick (by rw [ga5]; exact ha5.le) (by rw [ga5]; exact ha5'.le) ok5,
          s.rate15.rateOK_Tick (by rw [ga15]; exact ha15.le) (by rw [ga15]; exact ha15'.le) ok15,
          ?_, ?_, ?_, ?_⟩
        · intro hc
          right
          exact s.rate1.Tick_rate_pos (by rw [ga1]; exact ha1) (by rw [ga1]; exact ha1')
            ok1 (p1 hc)
        · intro hc
          right
          exact s.rate5.Tick_rate_pos (by rw [ga5]; exact ha5) (by rw [ga5]; exact ha5')
            ok5 (p5 hc)
        · intro hc
          right
          exact s.rate15.Tick_rate_pos (by rw [ga15]; exact ha15) (by rw [ga15]; exact ha15')
            ok15 (p15 hc)
        · intro hc
          rcases z hc with ⟨u1, r1, u5, r5, u15, r15⟩
          exact ⟨s.rate1.Tick_uncounted, s.rate1.Tick_rate_zero u1 r1,
            s.rate5.Tick_uncounted, s.rate5.Tick_rate_zero u5 r5,
            s.rate15.Tick_uncounted, s.rate15.Tick_rate_zero u15 r15⟩
  · exact ⟨rfl, rfl, rfl, ⟨le_refl 0, fun _ => rfl⟩, ⟨le_refl 0, fun _ => rfl⟩,
      ⟨le_refl 0, fun _ => rfl⟩,
      fun hc => absurd hc (by simp [NewHTTPStat]),
      fun hc => absurd hc (by simp [NewHTTPStat]),
      fun hc => absurd hc (by simp [NewHTTPStat]),
      fun _ => ⟨rfl, rfl, rfl, rfl, rfl, rfl⟩⟩

theorem Status_fst_M1 (hs : HTTPStat) : ((hs.Status).1).M1 = (hs.rate1.Tick).rate := rfl

theorem Status_fst_M5 (hs : HTTPStat) : ((hs.Status).1).M5 = (hs.rate5.Tick).rate := rfl

theorem Status_fst_M15 (hs : HTTPStat) : ((hs.Status).1).M15 = (hs.rate15.Tick).rate := rfl

theorem Status_fst_M1ErrPercent (hs : HTTPStat) :
    ((hs.Status).1).M1ErrPercent =
      if 0 < (hs.rate15.Tick).rate then (hs.errRate15.Tick).rate / (hs.rate15.Tick).rate
      else if 0 < (hs.rate5.Tick).rate then (hs.errRate5.Tick).rate / (hs.rate5.Tick).rate
      else if 0 < (hs.rate1.Tick).rate then (hs.errRate1.Tick).rate / (hs.rate1.Tick).rate
      else 0 := rfl

theorem Status_fst_M5ErrPercent (hs : HTTPStat) : ((hs.Status).1).M5ErrPercent = 0 := rfl

theorem Status_fst_M15ErrPercent (hs : HTTPStat) : ((hs.Status).1).M15ErrPercent = 0 := rfl

/-- C8: on any snapshot of a reachable aggregator state (with the EWMA
smoothing constants in `(0,1)`, as `1 - exp(-5/T)` is), if the reported
count is zero or any reported total rate is zero, then every derived
ratio — the mean duration and each of the three error percentages — is
reported as zero; in particular no division by a zero total rate is ever
performed (each division sits under a positivity guard). -/
theorem C8_empty_ratios_zero (a1 a5 a15 : Rat)
    (ha1 : 0 < a1) (ha1' : a1 < 1) (ha5 : 0 < a5) (ha5' : a5 < 1)
    (ha15 : 0 < a15) (ha15' : a15 < 1) (ops : List Op)
    (h : (((run a1 a5 a15 ops).Status).1).Count = 0 ∨
      (((run a1 a5 a15 ops).Status).1).M1 = 0 ∨
      (((run a1 a5 a15 ops).Status).1).M5 = 0 ∨
      (((run a1 a5 a15 ops).Status).1).M15 = 0) :
    (((run a1 a5 a15 ops).Status).1).Mean = 0 ∧
    (((run a1 a5 a15 ops).Status).1).M1ErrPercent = 0 ∧
    (((run a1 a5 a15 ops).Status).1).M5ErrPercent = 0 ∧
    (((run a1 a5 a15 ops).Status).1).M15ErrPercent = 0 := by
  rcases rateInv_run a1 a5 a15 ha1 ha1' ha5 ha5' ha15 ha15' ops with
    ⟨ga1, ga5, ga15, ok1, ok5, ok15, p1, p5, p15, z⟩
  set s := run a1 a5 a15 ops with hsdef
  have hcount : s.count = 0 := by
    rcases h with hC | hM1 | hM5 | hM15
    · rwa [Status_fst_Count] at hC
    · by_contra hne
      have hpos : 0 < (s.rate1.Tick).rate :=
        s.rate1.Tick_rate_pos (by rw [ga1]; exact ha1) (by rw [ga1]; exact ha1')
          ok1 (p1 (Nat.pos_of_ne_zero hne))
      rw [Status_fst_M1] at hM1
      rw [hM1] at hpos
      exact absurd hpos (lt_irrefl 0)
    · by_contra hne
      have hpos : 0 < (s.rate5.Tick).rate :=
        s.rate5.Tick_rate_pos (by rw [ga5]; exact ha5) (by rw [ga5]; exact ha5')
          ok5 (p5 (Nat.pos_of_ne_zero hne))
      rw [Status_fst_M5] at hM5
      rw [hM5] at hpos
      exact absurd hpos (lt_irrefl 0)
    · by_contra hne
      have hpos : 0 < (s.rate15.Tick).rate :=
        s.rate15.Tick_rate_pos (by rw [ga15]; exact ha15) (by rw [ga15]; exact ha15')
          ok15 (p15 (Nat.pos_of_ne_zero hne))
      rw [Status_fst_M15] at hM15
      rw [hM15] at hpos
      exact absurd hpos (lt_irrefl 0)
  rcases z hcount with ⟨u1, r1, u5, r5, u15, r15⟩
  have t1 : (s.rate1.Tick).rate = 0 := s.rate1.Tick_rate_zero u1 r1
  have t5 : (s.rate5.Tick).rate = 0 := s.rate5.Tick_rate_zero u5 r5
  have t15 : (s.rate15.Tick).rate = 0 := s.rate15.Tick_rate_zero u15 r15
  refine ⟨?_, ?_, Status_fst_M5ErrPercent s, Status_fst_M15ErrPercent s⟩
  · rw [Status_fst_Mean, if_neg (by omega)]
  · rw [Status_fst_M1ErrPercent, t1, t5, t15]
    simp

/-- C8 witness: the empty run (no observations) yields a snapshot with
count zero whose mean and three error percentages are all zero. -/
theorem C8_empty_ratios_zero_witness :
    (((run (1/2) (1/3) (1/4) []).Status).1).Mean = 0 ∧
    (((run (1/2) (1/3) (1/4) []).Status).1).M1ErrPercent = 0 ∧
    (((run (1/2) (1/3) (1/4) []).Status).1).M5ErrPercent = 0 ∧
    (((run (1/2) (1/3) (1/4) []).Status).1).M15ErrPercent = 0 :=
  C8_empty_ratios_zero (1/2) (1/3) (1/4)
    (by norm_num) (by norm_num) (by norm_num) (by norm_num)
    (by norm_num) (by norm_num) [] (Or.inl rfl)

/-- C10: the fresh aggregator's internal `min` field is the sentinel
`math.MaxUint64 = 2^64 - 1`; yet on any reachable state (durations being
in-range Go values) a snapshot with count zero reports
`Min = Mean = Max = 0`, and no snapshot ever reports the sentinel as its
`Min`. -/
theorem C10_sentinel_never_exposed (a1 a5 a15 : Rat) (ops : List Op)
    (hwf : ∀ m, Op.stat m ∈ ops → m.Duration < 2 ^ 63) :
    (NewHTTPStat a1 a5 a15).min = 2 ^ 64 - 1 ∧
    ((((run a1 a5 a15 ops).Status).1).Count = 0 →
      (((run a1 a5 a15 ops).Status).1).Min = 0 ∧
      (((run a1 a5 a15 ops).Status).1).Mean = 0 ∧
      (((run a1 a5 a15 ops).Status).1).Max = 0) ∧
    (((run a1 a5 a15 ops).Status).1).Min ≠ 2 ^ 64 - 1 := by
  have hinv :
      ((run a1 a5 a15 ops).count = 0 →
        (run a1 a5 a15 ops).total = 0 ∧ (run a1 a5 a15 ops).max = 0 ∧
        (run a1 a5 a15 ops).min = 2 ^ 64 - 1) ∧
      (0 < (run a1 a5 a15 ops).count → (run a1 a5 a15 ops).min < 2 ^ 64 - 1) := by
    refine run_inv
      (P := fun s => (s.count = 0 → s.total = 0 ∧ s.max = 0 ∧ s.min = 2 ^ 64 - 1) ∧
        (0 < s.count → s.min < 2 ^ 64 - 1)) ops ?_ _ ?_
    · rintro s o ho ⟨hz, hp⟩
      cases o with
      | stat m =>
          have hd : m.durationMs < 2 ^ 64 - 1 := by
            have hd1 := hwf m ho
            have hd2 : m.durationMs ≤ m.Duration := Nat.div_le_self _ _
            have : (2 : Nat) ^ 63 < 2 ^ 64 - 1 := by norm_num
            omega
          constructor
          · intro hc
            exact absurd hc (by simp [step, HTTPStat.Stat])
          · intro _
            show (if m.durationMs < s.min then m.durationMs else s.min) < 2 ^ 64 - 1
            split
            · exact hd
            · rename_i hge
              omega
      | status => exact ⟨hz, hp⟩
    · exact ⟨fun _ => ⟨rfl, rfl, rfl⟩, fun hc => absurd hc (by simp [NewHTTPStat])⟩
  rcases hinv with ⟨hz, hp⟩
  refine ⟨rfl, ?_, ?_⟩
  · intro hC
    rw [Status_fst_Count] at hC
    rcases hz hC with ⟨_, hmax, _⟩
    refine ⟨?_, ?_, ?_⟩
    · rw [Status_fst_Min, if_neg (by omega)]
    · rw [Status_fst_Mean, if_neg (by omega)]
    · rw [Status_fst_Max]; exact hmax
  · rcases Nat.eq_zero_or_pos (run a1 a5 a15 ops).count with hc | hc
    · rw [Status_fst_Min, if_neg (by omega)]
      norm_num
    · rw [Status_fst_Min, if_pos hc]
      exact Nat.ne_of_lt (hp hc)

/-- C10 witness: the empty run — the fresh `min` is the sentinel, the
empty snapshot reports zeros, and its `Min` is not the sentinel. -/
theorem C10_sentinel_never_exposed_witness :
    (NewHTTPStat (1/2) (1/3) (1/4)).min = 2 ^ 64 - 1 ∧
    ((((run (1/2) (1/3) (1/4) []).Status).1).Count = 0 →
      (((run (1/2) (1/3) (1/4) []).Status).1).Min = 0 ∧
      (((run (1/2) (1/3) (1/4) []).Status).1).Mean = 0 ∧
      (((run (1/2) (1/3) (1/4) []).Status).1).Max = 0) ∧
    (((run (1/2) (1/3) (1/4) []).Status).1).Min ≠ 2 ^ 64 - 1 :=
  C10_sentinel_never_exposed (1/2) (1/3) (1/4) []
    (fun _ hm => absurd hm (List.not_mem_nil _))

end MetricsGo
